import Mathlib

/-!
Verification development for the pm25tpbs-backend-database repository.

The development shallowly embeds the ingestion core of the repository:

* `src/data-validator.js` — the pure validator (`DataValidator.validate`,
  `DataValidator.isInRange`), embedded in the `PM25` namespace below as
  `validate` over an abstract model of raw JavaScript values;
* `src/influxdb-writer.js` — the buffering sink (`InfluxDBWriter.writeData`,
  `InfluxDBWriter.startBatchFlush`), embedded as explicit state passing over
  `InfluxState`;
* `src/websocket-client.js` — the self-reconnecting secondary adapter,
  embedded as an event-step transition system over `WSState`;
* `src/index.js` — the application failover controller
  (`Application.startDataClient`, `Application.switchToWebSocket`), embedded
  as an event-step transition system over `AppState`.

JavaScript numbers are modelled as rationals (the code performs only
comparisons, never arithmetic, so rounding plays no role).  Raw dynamically
typed values are abstracted by the results JavaScript's `parseFloat` and
`parseInt` would produce on them.  `setTimeout` timers are modelled as
pending-timer state plus explicit timer-fire events carrying the configured
delay in milliseconds.
-/

namespace PM25

/-! ### Raw JavaScript values (validator input model) -/

/-- A raw JavaScript value abstracted by the results of `parseFloat` and
`parseInt(·, 10)` on it.  `none` models a `NaN` parse result (e.g. for
`undefined`, `true`, `"x"`); the two results are kept separately because they
can differ on real values (`parseFloat(".5") = 0.5` while
`parseInt(".5", 10)` is `NaN`). -/
structure JSValue where
  parseFloat : Option Rat
  parseInt : Option Int
deriving DecidableEq, Repr

/-- Truncation toward zero, the composite effect of JavaScript's
string-coercing `parseInt` on a finite decimal number. -/
def jsTrunc (q : Rat) : Int :=
  if 0 ≤ q.num then (q.num.toNat / q.den : Nat)
  else -((((-q.num).toNat / q.den : Nat) : Int))

/-- A raw value that is an ordinary finite JavaScript number (or an exactly
numeric string). -/
def JSValue.ofNum (q : Rat) : JSValue :=
  ⟨some q, some (jsTrunc q)⟩

/-- A raw value on which both parses yield `NaN` (booleans, `undefined`,
non-numeric strings, nested objects, …). -/
def JSValue.nonNumeric : JSValue :=
  ⟨none, none⟩

/-- A JavaScript object: field names mapped to raw values (first binding
wins, as in property lookup). -/
def JSObj : Type := List (String × JSValue)

instance : DecidableEq JSObj := by
  unfold JSObj; infer_instance

/-- The argument of `DataValidator.validate`: either not an object (`null`,
a number, a string, a boolean, `undefined`), or an object. -/
inductive RawInput where
  | notObject : RawInput
  | obj : JSObj → RawInput
deriving DecidableEq

/-- Property lookup `data[field]`. -/
def lookupField (d : JSObj) (field : String) : Option JSValue :=
  match d with
  | [] => none
  | (k, v) :: rest => if k = field then some v else lookupField rest field

/-- The JavaScript `field in data` test. -/
def hasField (d : JSObj) (field : String) : Bool :=
  (lookupField d field).isSome

/-! ### The validator (`src/data-validator.js`) -/

/-- `this.requiredFields` from the `DataValidator` constructor. -/
def requiredFields : List String :=
  ["temperature", "humidity", "pm1", "pm2_5", "pm10"]

/-- An inclusive numeric range, `{ min, max }` in the source. -/
structure VRange where
  lo : Int
  hi : Int
deriving DecidableEq, Repr

/-- `this.ranges` from the `DataValidator` constructor. -/
structure VRanges where
  temperature : VRange
  humidity : VRange
  pm1 : VRange
  pm2_5 : VRange
  pm10 : VRange

/-- The declared validation ranges of the source. -/
def ranges : VRanges :=
  { temperature := ⟨-50, 100⟩
    humidity := ⟨0, 100⟩
    pm1 := ⟨0, 1000⟩
    pm2_5 := ⟨0, 1000⟩
    pm10 := ⟨0, 1000⟩ }

/-- `DataValidator.isInRange(value, range)`. -/
def isInRange (value : Rat) (r : VRange) : Bool :=
  decide ((r.lo : Rat) ≤ value) && decide (value ≤ (r.hi : Rat))

/-- A value stored in `validatedData`: a parsed float or a parsed integer. -/
inductive FieldVal where
  | flt : Rat → FieldVal
  | int : Int → FieldVal
deriving DecidableEq, Repr

/-- The error string `"<name> must be a number"`. -/
def numberMsg (displayName : String) : String :=
  displayName ++ " must be a number"

/-- The error string `"<name> out of range (<min>-<max>)"`. -/
def rangeMsg (displayName : String) (r : VRange) : String :=
  displayName ++ " out of range (" ++ toString r.lo ++ "-" ++ toString r.hi ++ ")"

/-- The error string `"Missing required fields: <joined names>"`. -/
def missingMsg (missing : List String) : String :=
  "Missing required fields: " ++ String.intercalate ", " missing

/-- One float-field block of `validate` (temperature, humidity): if the field
is present, `parseFloat` it, report a type error on `NaN`, a range error when
out of range, and otherwise record the parsed value in `validatedData`.
Returns the errors pushed and the `validatedData` entries assigned. -/
def checkFloat (d : JSObj) (fname displayName : String) (r : VRange) :
    List String × List (String × FieldVal) :=
  match lookupField d fname with
  | none => ([], [])
  | some v =>
    match v.parseFloat with
    | none => ([numberMsg displayName], [])
    | some q =>
      if isInRange q r then ([], [(fname, FieldVal.flt q)])
      else ([rangeMsg displayName r], [])

/-- One integer-field block of `validate` (pm1, pm2_5, pm10), using
`parseInt(·, 10)`. -/
def checkInt (d : JSObj) (fname displayName : String) (r : VRange) :
    List String × List (String × FieldVal) :=
  match lookupField d fname with
  | none => ([], [])
  | some v =>
    match v.parseInt with
    | none => ([numberMsg displayName], [])
    | some n =>
      if isInRange (n : Rat) r then ([], [(fname, FieldVal.int n)])
      else ([rangeMsg displayName r], [])

/-- `this.requiredFields.filter(field => !(field in data))`. -/
def missingOf (d : JSObj) : List String :=
  requiredFields.filter fun f => !(hasField d f)

/-- The `errors` array of `validate` at the end of the object branch, in push
order: the joined missing-fields error (if any) followed by the per-field
type/range errors for temperature, humidity, pm1, pm2_5, pm10. -/
def errorsOf (d : JSObj) : List String :=
  (if 0 < (missingOf d).length then [missingMsg (missingOf d)] else [])
    ++ (checkFloat d "temperature" "Temperature" ranges.temperature).1
    ++ (checkFloat d "humidity" "Humidity" ranges.humidity).1
    ++ (checkInt d "pm1" "PM1" ranges.pm1).1
    ++ (checkInt d "pm2_5" "PM2.5" ranges.pm2_5).1
    ++ (checkInt d "pm10" "PM10" ranges.pm10).1

/-- The `validatedData` object of `validate`, in assignment order. -/
def validatedDataOf (d : JSObj) : List (String × FieldVal) :=
  (checkFloat d "temperature" "Temperature" ranges.temperature).2
    ++ (checkFloat d "humidity" "Humidity" ranges.humidity).2
    ++ (checkInt d "pm1" "PM1" ranges.pm1).2
    ++ (checkInt d "pm2_5" "PM2.5" ranges.pm2_5).2
    ++ (checkInt d "pm10" "PM10" ranges.pm10).2

/-- The result object `{ valid, data, errors }` of `validate`. -/
structure ValidationResult where
  valid : Bool
  data : Option (List (String × FieldVal))
  errors : List String
deriving DecidableEq

/-- `DataValidator.validate(data)`. -/
def validate : RawInput → ValidationResult
  | RawInput.notObject =>
    { valid := false, data := none, errors := ["Data must be an object"] }
  | RawInput.obj d =>
    { valid := (errorsOf d).length == 0
      data := if (errorsOf d).length == 0 then some (validatedDataOf d) else none
      errors := errorsOf d }

/-! ### Field descriptors, used to state the per-field claims uniformly -/

/-- The five sensor fields the validator knows about. -/
inductive SField where
  | temperature | humidity | pm1 | pm2_5 | pm10
deriving DecidableEq, Repr

/-- The raw-input key of a field. -/
def fieldName : SField → String
  | SField.temperature => "temperature"
  | SField.humidity => "humidity"
  | SField.pm1 => "pm1"
  | SField.pm2_5 => "pm2_5"
  | SField.pm10 => "pm10"

/-- The display name a field's error messages use. -/
def fieldDisplay : SField → String
  | SField.temperature => "Temperature"
  | SField.humidity => "Humidity"
  | SField.pm1 => "PM1"
  | SField.pm2_5 => "PM2.5"
  | SField.pm10 => "PM10"

/-- The declared range of a field. -/
def fieldRange : SField → VRange
  | SField.temperature => ranges.temperature
  | SField.humidity => ranges.humidity
  | SField.pm1 => ranges.pm1
  | SField.pm2_5 => ranges.pm2_5
  | SField.pm10 => ranges.pm10

/-- How `validate` parses a field's raw value: `parseFloat` for the two float
fields, `parseInt` for the three particulate fields. -/
def fieldParsed : SField → JSValue → Option FieldVal
  | SField.temperature, v => v.parseFloat.map FieldVal.flt
  | SField.humidity, v => v.parseFloat.map FieldVal.flt
  | SField.pm1, v => v.parseInt.map FieldVal.int
  | SField.pm2_5, v => v.parseInt.map FieldVal.int
  | SField.pm10, v => v.parseInt.map FieldVal.int

/-- Whether a parsed field value fails the range check `isInRange`. -/
def valOutOfRange : FieldVal → VRange → Bool
  | FieldVal.flt q, r => !isInRange q r
  | FieldVal.int n, r => !isInRange (n : Rat) r

/-- The number of errors the block for field `f` pushes: `0` when the field
is absent, `1` when it is present but fails to parse or is out of range. -/
def failCount (d : JSObj) (f : SField) : Nat :=
  match lookupField d (fieldName f) with
  | none => 0
  | some v =>
    match fieldParsed f v with
    | none => 1
    | some fv => if valOutOfRange fv (fieldRange f) then 1 else 0

/-! ### Validator lemmas -/

lemma hasField_exists {d : JSObj} {f : String} (h : hasField d f = true) :
    ∃ v, lookupField d f = some v := by
  unfold hasField at h
  exact Option.isSome_iff_exists.mp h

lemma checkFloat_empty_fst {d : JSObj} {n dn : String} {r : VRange}
    (hf : hasField d n = true) (he : (checkFloat d n dn r).1 = []) :
    ∃ q, (checkFloat d n dn r).2 = [(n, FieldVal.flt q)] ∧ isInRange q r = true := by
  obtain ⟨v, hv⟩ := hasField_exists hf
  cases hp : v.parseFloat with
  | none => exact absurd he (by simp [checkFloat, hv, hp])
  | some q =>
    cases hr : isInRange q r with
    | false => exact absurd he (by simp [checkFloat, hv, hp, hr])
    | true => exact ⟨q, by simp [checkFloat, hv, hp, hr], hr⟩

lemma checkInt_empty_fst {d : JSObj} {n dn : String} {r : VRange}
    (hf : hasField d n = true) (he : (checkInt d n dn r).1 = []) :
    ∃ a : Int, (checkInt d n dn r).2 = [(n, FieldVal.int a)] ∧
      isInRange (a : Rat) r = true := by
  obtain ⟨v, hv⟩ := hasField_exists hf
  cases hp : v.parseInt with
  | none => exact absurd he (by simp [checkInt, hv, hp])
  | some a =>
    cases hr : isInRange (a : Rat) r with
    | false => exact absurd he (by simp [checkInt, hv, hp, hr])
    | true => exact ⟨a, by simp [checkInt, hv, hp, hr], hr⟩

lemma missing_nil_of_errors_nil {d : JSObj}
    (h : (if 0 < (missingOf d).length then [missingMsg (missingOf d)] else []) = []) :
    missingOf d = [] := by
  cases hm : missingOf d with
  | nil => rfl
  | cons x xs => rw [hm] at h; simp at h

lemma hasField_of_missing_nil {d : JSObj} (h : missingOf d = [])
    {f : String} (hf : f ∈ requiredFields) : hasField d f = true := by
  unfold missingOf at h
  rw [List.filter_eq_nil_iff] at h
  have := h f hf
  simp only [Bool.not_eq_true'] at this
  simpa using this

/-- If `validate` reports `valid`, the produced record is exactly the
five-field record, each field in its declared range. -/
lemma validate_valid_shape (d : JSObj)
    (h : (validate (RawInput.obj d)).valid = true) :
    ∃ t hu a b c,
      (validate (RawInput.obj d)).data = some
        [("temperature", FieldVal.flt t), ("humidity", FieldVal.flt hu),
         ("pm1", FieldVal.int a), ("pm2_5", FieldVal.int b),
         ("pm10", FieldVal.int c)] ∧
      isInRange t ranges.temperature = true ∧
      isInRange hu ranges.humidity = true ∧
      isInRange (a : Rat) ranges.pm1 = true ∧
      isInRange (b : Rat) ranges.pm2_5 = true ∧
      isInRange (c : Rat) ranges.pm10 = true := by
  have hbeq : ((errorsOf d).length == 0) = true := by
    simpa [validate] using h
  have hnil : errorsOf d = [] :=
    List.length_eq_zero.mp (by simpa using hbeq)
  unfold errorsOf at hnil
  rw [List.append_eq_nil, List.append_eq_nil, List.append_eq_nil,
    List.append_eq_nil, List.append_eq_nil] at hnil
  obtain ⟨⟨⟨⟨⟨hm, hT⟩, hH⟩, h1⟩, h25⟩, h10⟩ := hnil
  have hmiss := missing_nil_of_errors_nil hm
  have hfT : hasField d "temperature" = true :=
    hasField_of_missing_nil hmiss (by simp [requiredFields])
  have hfH : hasField d "humidity" = true :=
    hasField_of_missing_nil hmiss (by simp [requiredFields])
  have hf1 : hasField d "pm1" = true :=
    hasField_of_missing_nil hmiss (by simp [requiredFields])
  have hf25 : hasField d "pm2_5" = true :=
    hasField_of_missing_nil hmiss (by simp [requiredFields])
  have hf10 : hasField d "pm10" = true :=
    hasField_of_missing_nil hmiss (by simp [requiredFields])
  obtain ⟨t, hvT, hrT⟩ := checkFloat_empty_fst hfT hT
  obtain ⟨hu, hvH, hrH⟩ := checkFloat_empty_fst hfH hH
  obtain ⟨a, hv1, hr1⟩ := checkInt_empty_fst hf1 h1
  obtain ⟨b, hv25, hr25⟩ := checkInt_empty_fst hf25 h25
  obtain ⟨c, hv10, hr10⟩ := checkInt_empty_fst hf10 h10
  refine ⟨t, hu, a, b, c, ?_, hrT, hrH, hr1, hr25, hr10⟩
  simp only [validate, hbeq, if_pos, validatedDataOf, hvT, hvH, hv1, hv25, hv10]
  rfl

lemma validate_invalid_of_mem {d : JSObj} {e : String} (he : e ∈ errorsOf d) :
    (validate (RawInput.obj d)).valid = false ∧
    (validate (RawInput.obj d)).data = none ∧
    e ∈ (validate (RawInput.obj d)).errors := by
  have hne : errorsOf d ≠ [] := List.ne_nil_of_mem he
  have hlen : ¬(errorsOf d).length = 0 := fun hl => hne (List.length_eq_zero.mp hl)
  have hbeq : ((errorsOf d).length == 0) = false := beq_eq_false_iff_ne.mpr hlen
  refine ⟨?_, ?_, ?_⟩ <;> simp [validate, hbeq, he]

lemma mem_errorsOf_of_checkFloat_temperature {d : JSObj} {e : String}
    (h : e ∈ (checkFloat d "temperature" "Temperature" ranges.temperature).1) :
    e ∈ errorsOf d := by
  unfold errorsOf; simp [h]

lemma mem_errorsOf_of_checkFloat_humidity {d : JSObj} {e : String}
    (h : e ∈ (checkFloat d "humidity" "Humidity" ranges.humidity).1) :
    e ∈ errorsOf d := by
  unfold errorsOf; simp [h]

lemma mem_errorsOf_of_checkInt_pm1 {d : JSObj} {e : String}
    (h : e ∈ (checkInt d "pm1" "PM1" ranges.pm1).1) : e ∈ errorsOf d := by
  unfold errorsOf; simp [h]

lemma mem_errorsOf_of_checkInt_pm2_5 {d : JSObj} {e : String}
    (h : e ∈ (checkInt d "pm2_5" "PM2.5" ranges.pm2_5).1) : e ∈ errorsOf d := by
  unfold errorsOf; simp [h]

lemma mem_errorsOf_of_checkInt_pm10 {d : JSObj} {e : String}
    (h : e ∈ (checkInt d "pm10" "PM10" ranges.pm10).1) : e ∈ errorsOf d := by
  unfold errorsOf; simp [h]

lemma checkFloat_range_err {d : JSObj} {n dn : String} {r : VRange} {v : JSValue}
    {q : Rat} (hv : lookupField d n = some v) (hq : v.parseFloat = some q)
    (hr : isInRange q r = false) :
    (checkFloat d n dn r).1 = [rangeMsg dn r] := by
  simp [checkFloat, hv, hq, hr]

lemma checkInt_range_err {d : JSObj} {n dn : String} {r : VRange} {v : JSValue}
    {a : Int} (hv : lookupField d n = some v) (hq : v.parseInt = some a)
    (hr : isInRange (a : Rat) r = false) :
    (checkInt d n dn r).1 = [rangeMsg dn r] := by
  simp [checkInt, hv, hq, hr]

/-! ### Claims C6 to C10 -/

/-- Claim C6: for every input, `validate` returns a tagged outcome that is
exactly one of (a) valid, with a sensor record in which every one of the five
fields is present and within its declared bound and no errors are reported,
or (b) invalid, with `data` null and a non-empty list of error descriptions —
never both a record and errors. -/
theorem C6_validation_tagged_outcome (input : RawInput) :
    ((validate input).valid = true ∧ (validate input).errors = [] ∧
      ∃ t hu a b c,
        (validate input).data = some
          [("temperature", FieldVal.flt t), ("humidity", FieldVal.flt hu),
           ("pm1", FieldVal.int a), ("pm2_5", FieldVal.int b),
           ("pm10", FieldVal.int c)] ∧
        isInRange t ranges.temperature = true ∧
        isInRange hu ranges.humidity = true ∧
        isInRange (a : Rat) ranges.pm1 = true ∧
        isInRange (b : Rat) ranges.pm2_5 = true ∧
        isInRange (c : Rat) ranges.pm10 = true) ∨
    ((validate input).valid = false ∧ (validate input).data = none ∧
      (validate input).errors ≠ []) := by
  cases input with
  | notObject => right; refine ⟨rfl, rfl, by simp [validate]⟩
  | obj d =>
    cases hval : (validate (RawInput.obj d)).valid with
    | true =>
      left
      have hbeq : ((errorsOf d).length == 0) = true := by simpa [validate] using hval
      have hnil : errorsOf d = [] := List.length_eq_zero.mp (by simpa using hbeq)
      refine ⟨rfl, ?_, validate_valid_shape d hval⟩
      simpa [validate] using hnil
    | false =>
      right
      have hbeq : ((errorsOf d).length == 0) = false := by simpa [validate] using hval
      have hne : errorsOf d ≠ [] := by
        intro hnil
        rw [hnil] at hbeq
        simp at hbeq
      exact ⟨rfl, by simp [validate, hbeq], by simpa [validate] using hne⟩

/-- Claim C7: for every input object lacking one or more of the required
fields, `validate` returns an invalid result whose error list contains the
missing-fields error naming each missing field, and `data` is null. -/
theorem C7_missing_fields (d : JSObj)
    (h : ∃ f ∈ requiredFields, hasField d f = false) :
    (validate (RawInput.obj d)).valid = false ∧
    (validate (RawInput.obj d)).data = none ∧
    missingMsg (missingOf d) ∈ (validate (RawInput.obj d)).errors ∧
    ∀ f ∈ requiredFields, hasField d f = false → f ∈ missingOf d := by
  obtain ⟨f, hf, hmiss⟩ := h
  have hfm : f ∈ missingOf d := by
    unfold missingOf
    exact List.mem_filter.mpr ⟨hf, by simp [hmiss]⟩
  have hne : missingOf d ≠ [] := List.ne_nil_of_mem hfm
  have hlen : 0 < (missingOf d).length := List.length_pos.mpr hne
  have hmem : missingMsg (missingOf d) ∈ errorsOf d := by
    unfold errorsOf
    rw [if_pos hlen]
    simp
  obtain ⟨h1, h2, h3⟩ := validate_invalid_of_mem hmem
  refine ⟨h1, h2, h3, fun g hg hgm => ?_⟩
  unfold missingOf
  exact List.mem_filter.mpr ⟨hg, by simp [hgm]⟩

/-- Witness for C7 at the empty object: every field is missing. -/
theorem C7_missing_fields_witness :
    (validate (RawInput.obj [])).valid = false ∧
    (validate (RawInput.obj [])).data = none ∧
    missingMsg (missingOf []) ∈ (validate (RawInput.obj [])).errors ∧
    ∀ f ∈ requiredFields, hasField [] f = false → f ∈ missingOf [] :=
  C7_missing_fields [] ⟨"temperature", by decide, by decide⟩

/-- Claim C8: for every input object in which some numeric field parses to a
value outside its declared range, `validate` returns an invalid result whose
error list contains the out-of-range error mentioning that field's bounds,
and the record is rejected as a whole (`data` is null). -/
theorem C8_out_of_range (d : JSObj) (f : SField) (v : JSValue) (fv : FieldVal)
    (h1 : lookupField d (fieldName f) = some v)
    (h2 : fieldParsed f v = some fv)
    (h3 : valOutOfRange fv (fieldRange f) = true) :
    (validate (RawInput.obj d)).valid = false ∧
    (validate (RawInput.obj d)).data = none ∧
    rangeMsg (fieldDisplay f) (fieldRange f) ∈ (validate (RawInput.obj d)).errors := by
  have hmem : rangeMsg (fieldDisplay f) (fieldRange f) ∈ errorsOf d := by
    cases f with
    | temperature =>
      simp only [fieldName] at h1
      simp only [fieldParsed, Option.map_eq_some'] at h2
      obtain ⟨q, hq, rfl⟩ := h2
      simp only [valOutOfRange, fieldRange, Bool.not_eq_true'] at h3
      exact mem_errorsOf_of_checkFloat_temperature
        (by rw [checkFloat_range_err h1 hq h3]; simp [fieldDisplay, fieldRange])
    | humidity =>
      simp only [fieldName] at h1
      simp only [fieldParsed, Option.map_eq_some'] at h2
      obtain ⟨q, hq, rfl⟩ := h2
      simp only [valOutOfRange, fieldRange, Bool.not_eq_true'] at h3
      exact mem_errorsOf_of_checkFloat_humidity
        (by rw [checkFloat_range_err h1 hq h3]; simp [fieldDisplay, fieldRange])
    | pm1 =>
      simp only [fieldName] at h1
      simp only [fieldParsed, Option.map_eq_some'] at h2
      obtain ⟨a, hq, rfl⟩ := h2
      simp only [valOutOfRange, fieldRange, Bool.not_eq_true'] at h3
      exact mem_errorsOf_of_checkInt_pm1
        (by rw [checkInt_range_err h1 hq h3]; simp [fieldDisplay, fieldRange])
    | pm2_5 =>
      simp only [fieldName] at h1
      simp only [fieldParsed, Option.map_eq_some'] at h2
      obtain ⟨a, hq, rfl⟩ := h2
      simp only [valOutOfRange, fieldRange, Bool.not_eq_true'] at h3
      exact mem_errorsOf_of_checkInt_pm2_5
        (by rw [checkInt_range_err h1 hq h3]; simp [fieldDisplay, fieldRange])
    | pm10 =>
      simp only [fieldName] at h1
      simp only [fieldParsed, Option.map_eq_some'] at h2
      obtain ⟨a, hq, rfl⟩ := h2
      simp only [valOutOfRange, fieldRange, Bool.not_eq_true'] at h3
      exact mem_errorsOf_of_checkInt_pm10
        (by rw [checkInt_range_err h1 hq h3]; simp [fieldDisplay, fieldRange])
  exact validate_invalid_of_mem hmem

/-- Witness for C8: a temperature of 200 is rejected with the range error. -/
theorem C8_out_of_range_witness :
    (validate (RawInput.obj [("temperature", JSValue.mk (some 200) (some 200))])).valid
      = false ∧
    (validate (RawInput.obj [("temperature", JSValue.mk (some 200) (some 200))])).data
      = none ∧
    rangeMsg (fieldDisplay SField.temperature) (fieldRange SField.temperature)
      ∈ (validate (RawInput.obj [("temperature", JSValue.mk (some 200) (some 200))])).errors :=
  C8_out_of_range [("temperature", JSValue.mk (some 200) (some 200))]
    SField.temperature (JSValue.mk (some 200) (some 200)) (FieldVal.flt 200)
    (by decide) (by decide) (by decide)

lemma checkFloat_length_eq_failCount (d : JSObj) (f : SField) (dn : String)
    (hf : fieldParsed f = fun v => v.parseFloat.map FieldVal.flt) :
    (checkFloat d (fieldName f) dn (fieldRange f)).1.length = failCount d f := by
  cases hv : lookupField d (fieldName f) with
  | none => simp [checkFloat, failCount, hv]
  | some v =>
    cases hp : v.parseFloat with
    | none => simp [checkFloat, failCount, hv, hf, hp]
    | some q =>
      cases hr : isInRange q (fieldRange f) <;>
        simp [checkFloat, failCount, hv, hf, hp, hr, valOutOfRange]

lemma checkInt_length_eq_failCount (d : JSObj) (f : SField) (dn : String)
    (hf : fieldParsed f = fun v => v.parseInt.map FieldVal.int) :
    (checkInt d (fieldName f) dn (fieldRange f)).1.length = failCount d f := by
  cases hv : lookupField d (fieldName f) with
  | none => simp [checkInt, failCount, hv]
  | some v =>
    cases hp : v.parseInt with
    | none => simp [checkInt, failCount, hv, hf, hp]
    | some a =>
      cases hr : isInRange (a : Rat) (fieldRange f) <;>
        simp [checkInt, failCount, hv, hf, hp, hr, valOutOfRange]

/-- Claim C9: `validate` does not short-circuit on the first failing field:
the length of the returned error list is exactly one error for the
missing-fields condition (when some field is absent) plus one error for each
present field that fails to parse or is out of range. -/
theorem C9_error_accumulation (d : JSObj) :
    (validate (RawInput.obj d)).errors.length =
      (if missingOf d = [] then 0 else 1) +
      failCount d SField.temperature + failCount d SField.humidity +
      failCount d SField.pm1 + failCount d SField.pm2_5 + failCount d SField.pm10 := by
  have he : (validate (RawInput.obj d)).errors = errorsOf d := by simp [validate]
  rw [he]
  unfold errorsOf
  have hT := checkFloat_length_eq_failCount d SField.temperature "Temperature" rfl
  have hH := checkFloat_length_eq_failCount d SField.humidity "Humidity" rfl
  have h1 := checkInt_length_eq_failCount d SField.pm1 "PM1" rfl
  have h25 := checkInt_length_eq_failCount d SField.pm2_5 "PM2.5" rfl
  have h10 := checkInt_length_eq_failCount d SField.pm10 "PM10" rfl
  simp only [fieldName, fieldRange] at hT hH h1 h25 h10
  simp only [List.length_append, hT, hH, h1, h25, h10]
  cases hm : missingOf d with
  | nil => simp
  | cons x xs => simp [Nat.add_assoc]

/-- Claim C10: every input object accepted by `validate` yields a record
containing exactly the five keys `temperature`, `humidity`, `pm1`, `pm2_5`,
`pm10`; extra keys of the raw input are never carried into the record. -/
theorem C10_exact_keys (d : JSObj)
    (h : (validate (RawInput.obj d)).valid = true) :
    ∃ rec, (validate (RawInput.obj d)).data = some rec ∧
      rec.map Prod.fst = requiredFields := by
  obtain ⟨t, hu, a, b, c, hdata, -⟩ := validate_valid_shape d h
  exact ⟨_, hdata, by simp [requiredFields]⟩

/-- Witness for C10: a fully valid object with an extra key `foo`; the record
keeps exactly the five declared keys. -/
theorem C10_exact_keys_witness :
    ∃ rec,
      (validate (RawInput.obj
        [("temperature", JSValue.mk (some 26) (some 26)),
         ("humidity", JSValue.mk (some 81) (some 81)),
         ("pm1", JSValue.mk (some 24) (some 24)),
         ("pm2_5", JSValue.mk (some 35) (some 35)),
         ("pm10", JSValue.mk (some 37) (some 37)),
         ("foo", JSValue.mk (some 1) (some 1))])).data = some rec ∧
      rec.map Prod.fst = requiredFields :=
  C10_exact_keys
    [("temperature", JSValue.mk (some 26) (some 26)),
     ("humidity", JSValue.mk (some 81) (some 81)),
     ("pm1", JSValue.mk (some 24) (some 24)),
     ("pm2_5", JSValue.mk (some 35) (some 35)),
     ("pm10", JSValue.mk (some 37) (some 37)),
     ("foo", JSValue.mk (some 1) (some 1))] (by decide)

/-! ### The InfluxDB sink (`src/influxdb-writer.js`) -/

/-- The validated sensor record `writeData` receives. -/
structure SensorData where
  temperature : Rat
  humidity : Rat
  pm1 : Int
  pm2_5 : Int
  pm10 : Int
deriving DecidableEq, Repr

/-- The optional tag set `writeData` receives. -/
structure WTags where
  sensor_id : Option String
  location : Option String
  device_type : Option String
deriving DecidableEq, Repr

/-- An InfluxDB write point: the measurement name, float fields, integer
fields and tags, in the order they are attached in `writeData`. -/
structure WPoint where
  measurement : String
  floatFields : List (String × Rat)
  intFields : List (String × Int)
  tags : List (String × String)
deriving DecidableEq, Repr

/-- The point constructed in `writeData`: measurement `environmental_sensors`,
float fields temperature and humidity, int fields pm1, pm2_5, pm10, and
whichever optional tags are present. -/
def mkPoint (data : SensorData) (tags : WTags) : WPoint :=
  { measurement := "environmental_sensors"
    floatFields := [("temperature", data.temperature), ("humidity", data.humidity)]
    intFields := [("pm1", data.pm1), ("pm2_5", data.pm2_5), ("pm10", data.pm10)]
    tags :=
      (match tags.sensor_id with | some s => [("sensor_id", s)] | none => [])
        ++ (match tags.location with | some s => [("location", s)] | none => [])
        ++ (match tags.device_type with | some s => [("device_type", s)] | none => []) }

/-- A buffered item `{ data, tags, timestamp: Date.now() }`. -/
structure BufferedItem where
  data : SensorData
  tags : WTags
  timestamp : Nat
deriving DecidableEq, Repr

/-- The mutable state of the `InfluxDBWriter` singleton, plus the state of
its write API: `batch` is the write API's pending batch (points submitted via
`writePoint` and not yet flushed), `stored` the points already flushed to the
store. -/
structure InfluxState where
  isConnected : Bool
  hasWriteApi : Bool
  buffer : List BufferedItem
  batch : List WPoint
  stored : List WPoint
deriving DecidableEq, Repr

/-- `InfluxDBWriter.writeData(data, tags)`.  `now` is `Date.now()` at the
call; `writeOk` tells whether the underlying `writePoint` call succeeds
(`false` models the caught exception path, which returns `false` and leaves
the state unchanged).  Returns the new state and the boolean result. -/
def writeData (s : InfluxState) (data : SensorData) (tags : WTags)
    (now : Nat) (writeOk : Bool) : InfluxState × Bool :=
  if !s.isConnected || !s.hasWriteApi then
    ({ s with buffer := s.buffer ++ [⟨data, tags, now⟩] }, false)
  else if writeOk then
    ({ s with batch := s.batch ++ [mkPoint data tags] }, true)
  else
    (s, false)

/-- The `for (const item of this.buffer)` drain loop of the flush callback:
each buffered item is re-submitted through `writeData`; `oks` supplies the
per-item `writePoint` outcome. -/
def drainBuffer (now : Nat) : InfluxState → List BufferedItem → List Bool → InfluxState
  | s, [], _ => s
  | s, item :: rest, oks =>
    drainBuffer now (writeData s item.data item.tags now (oks.headD true)).1 rest oks.tail

/-- The points that a drain of `items` submits when the writer is connected:
one point per item whose write succeeds, in enqueue order. -/
def drainedPoints : List BufferedItem → List Bool → List WPoint
  | [], _ => []
  | item :: rest, oks =>
    if oks.headD true then mkPoint item.data item.tags :: drainedPoints rest oks.tail
    else drainedPoints rest oks.tail

/-- One firing of the `setInterval` callback installed by
`InfluxDBWriter.startBatchFlush`: if the write API exists, flush the pending
batch (`flushOk = false` models a flush failure caught by the handler, which
skips the drain); on success, when the buffer is non-empty and the writer is
connected, drain the buffer through `writeData` and then clear it. -/
def flushTick (s : InfluxState) (flushOk : Bool) (oks : List Bool) (now : Nat) :
    InfluxState :=
  if s.hasWriteApi then
    if flushOk then
      if 0 < s.buffer.length ∧ s.isConnected = true then
        { drainBuffer now { s with stored := s.stored ++ s.batch, batch := [] }
            s.buffer oks with
          buffer := [] }
      else { s with stored := s.stored ++ s.batch, batch := [] }
    else s
  else s

/-- A sequence of `writeData` calls, returning the final state and the list
of boolean results in call order. -/
def writeDataN (s : InfluxState) : List (SensorData × WTags × Nat) → InfluxState × List Bool
  | [] => (s, [])
  | (d, t, n) :: rest =>
    let r := writeData s d t n true
    let rs := writeDataN r.1 rest
    (rs.1, r.2 :: rs.2)

lemma drainBuffer_connected (now : Nat) (items : List BufferedItem)
    (oks : List Bool) (s : InfluxState) (hc : s.isConnected = true)
    (hw : s.hasWriteApi = true) :
    drainBuffer now s items oks = { s with batch := s.batch ++ drainedPoints items oks } := by
  induction items generalizing s oks with
  | nil => simp [drainBuffer, drainedPoints]
  | cons item rest ih =>
    cases hok : oks.headD true with
    | true =>
      have hwrite : (writeData s item.data item.tags now true).1 =
          { s with batch := s.batch ++ [mkPoint item.data item.tags] } := by
        rw [writeData]; simp [hc, hw]
      have hok' : oks.head?.getD true = true := by simpa using hok
      rw [drainBuffer, hok, hwrite,
        ih oks.tail { s with batch := s.batch ++ [mkPoint item.data item.tags] } hc hw]
      simp [drainedPoints, hok', List.append_assoc]
    | false =>
      have hwrite : (writeData s item.data item.tags now false).1 = s := by
        rw [writeData]; simp [hc, hw]
      have hok' : oks.head?.getD true = false := by simpa using hok
      rw [drainBuffer, hok, hwrite, ih oks.tail s hc hw]
      simp [drainedPoints, hok']

/-- Claim C4: when a periodic flush fires with the store connection healthy
and the buffer non-empty, the pending batch is flushed and the buffer is
drained in original enqueue (FIFO) order through the same `writeData` path;
the buffer has length 0 afterwards, and items whose write fails during the
drain are simply dropped (the drained batch contains exactly the successful
points, in order — nothing is re-queued). -/
theorem C4_flush_drains_buffer (s : InfluxState) (oks : List Bool) (now : Nat)
    (hc : s.isConnected = true) (hw : s.hasWriteApi = true)
    (hb : s.buffer ≠ []) :
    (flushTick s true oks now).buffer = [] ∧
    (flushTick s true oks now).batch = drainedPoints s.buffer oks ∧
    (flushTick s true oks now).stored = s.stored ++ s.batch ∧
    (flushTick s true oks now).isConnected = true := by
  have hlen : 0 < s.buffer.length := List.length_pos.mpr hb
  rw [flushTick, if_pos hw, if_pos rfl, if_pos ⟨hlen, hc⟩,
    drainBuffer_connected now s.buffer oks
      { s with stored := s.stored ++ s.batch, batch := [] } hc hw]
  exact ⟨rfl, by simp, rfl, hc⟩

/-- Witness for C4: a single buffered item is drained on flush. -/
theorem C4_flush_drains_buffer_witness :
    (flushTick
      { isConnected := true, hasWriteApi := true
        buffer := [⟨⟨26, 81, 24, 35, 37⟩, ⟨some "sensor-001", some "default", some "environmental"⟩, 5⟩]
        batch := [], stored := [] } true [true] 9).buffer = [] ∧
    (flushTick
      { isConnected := true, hasWriteApi := true
        buffer := [⟨⟨26, 81, 24, 35, 37⟩, ⟨some "sensor-001", some "default", some "environmental"⟩, 5⟩]
        batch := [], stored := [] } true [true] 9).batch =
      drainedPoints
        [⟨⟨26, 81, 24, 35, 37⟩, ⟨some "sensor-001", some "default", some "environmental"⟩, 5⟩]
        [true] := by
  have h := C4_flush_drains_buffer
    { isConnected := true, hasWriteApi := true
      buffer := [⟨⟨26, 81, 24, 35, 37⟩, ⟨some "sensor-001", some "default", some "environmental"⟩, 5⟩]
      batch := [], stored := [] } [true] 9 rfl rfl (by decide)
  exact ⟨h.1, h.2.1⟩

/-- Claim C5: while the sink is not connected to the store, every `writeData`
call appends `{record, tags, enqueue-time}` to the in-memory buffer and
returns `false` (never throwing); N consecutive calls leave the buffer
extended by the N items in call order, every call returning `false`. -/
theorem C5_buffering_when_disconnected (s : InfluxState)
    (calls : List (SensorData × WTags × Nat)) (d : SensorData) (t : WTags)
    (n : Nat) (ok : Bool) (h : s.isConnected = false) :
    writeData s d t n ok = ({ s with buffer := s.buffer ++ [⟨d, t, n⟩] }, false) ∧
    (writeDataN s calls).1.buffer =
      s.buffer ++ calls.map (fun c => ⟨c.1, c.2.1, c.2.2⟩) ∧
    (writeDataN s calls).2 = calls.map (fun _ => false) ∧
    (writeDataN s calls).1.buffer.length = s.buffer.length + calls.length := by
  refine ⟨by rw [writeData]; simp [h], ?_, ?_, ?_⟩
  · induction calls generalizing s h with
    | nil => simp [writeDataN]
    | cons c rest ih =>
      rw [writeDataN, writeData]
      simp only [h, Bool.not_false, Bool.true_or, if_true]
      rw [ih _ rfl]
      simp [List.append_assoc]
  · induction calls generalizing s h with
    | nil => simp [writeDataN]
    | cons c rest ih =>
      rw [writeDataN, writeData]
      simp only [h, Bool.not_false, Bool.true_or, if_true]
      rw [ih _ rfl]
      simp
  · induction calls generalizing s h with
    | nil => simp [writeDataN]
    | cons c rest ih =>
      rw [writeDataN, writeData]
      simp only [h, Bool.not_false, Bool.true_or, if_true]
      rw [ih _ rfl]
      simp [Nat.add_assoc, Nat.add_comm 1]

/-- A disconnected sink state, used by the C5 witness. -/
def sinkDown : InfluxState :=
  { isConnected := false, hasWriteApi := false, buffer := [], batch := [], stored := [] }

/-- Two concrete `writeData` calls, used by the C5 witness. -/
def c5Calls : List (SensorData × WTags × Nat) :=
  [(⟨26, 81, 24, 35, 37⟩, ⟨none, none, none⟩, 3),
   (⟨27, 82, 25, 36, 38⟩, ⟨none, none, none⟩, 4)]

/-- Witness for C5: two calls while disconnected buffer two items in order,
both returning false. -/
theorem C5_buffering_when_disconnected_witness :
    writeData sinkDown ⟨26, 81, 24, 35, 37⟩ ⟨none, none, none⟩ 3 true =
      ({ sinkDown with buffer := sinkDown.buffer ++ [⟨⟨26, 81, 24, 35, 37⟩, ⟨none, none, none⟩, 3⟩] },
        false) ∧
    (writeDataN sinkDown c5Calls).1.buffer =
      sinkDown.buffer ++ c5Calls.map (fun c => ⟨c.1, c.2.1, c.2.2⟩) ∧
    (writeDataN sinkDown c5Calls).2 = c5Calls.map (fun _ => false) := by
  have h := C5_buffering_when_disconnected sinkDown c5Calls
    ⟨26, 81, 24, 35, 37⟩ ⟨none, none, none⟩ 3 true rfl
  exact ⟨h.1, h.2.1, h.2.2.1⟩

/-! ### The WebSocket secondary adapter (`src/websocket-client.js`) -/

/-- The mutable state of a `WebSocketClient`: whether a live socket exists
(one that can still deliver `open`/`message`/`error`/`close` events), the
`isConnected` flag, the reconnect-attempt counter, whether a reconnect timer
is pending, and the configuration read in the constructor. -/
structure WSState where
  socketLive : Bool
  isConnected : Bool
  reconnectAttempts : Nat
  timerPending : Bool
  maxReconnectAttempts : Nat
  reconnectInterval : Nat
deriving DecidableEq, Repr

/-- Events the adapter reacts to: socket `open`, socket `close`, socket
`error`, and the reconnect timer firing. -/
inductive WSEvent where
  | openEvt | close | errorEvt | timer
deriving DecidableEq, Repr

/-- Observable outputs: the `connected` / `disconnected` / `error` / `failed`
emissions, the scheduling of a reconnect timer with its delay, and a
connection attempt (`connect()` creating a socket). -/
inductive WSOut where
  | connectedE | disconnectedE | errorE | failedE
  | timerSet : Nat → WSOut
  | connectAttempt
deriving DecidableEq, Repr

/-- `WebSocketClient.connect()` (success path): creates a new socket and
installs the event handlers. -/
def wsConnect (s : WSState) : WSState × List WSOut :=
  ({ s with socketLive := true }, [WSOut.connectAttempt])

/-- `WebSocketClient.scheduleReconnect()`: if the attempt counter has reached
the maximum, emit `failed` and stop; otherwise clear any pending timer,
increment the counter and schedule a reconnect after `reconnectInterval`. -/
def scheduleReconnect (s : WSState) : WSState × List WSOut :=
  if s.maxReconnectAttempts ≤ s.reconnectAttempts then
    (s, [WSOut.failedE])
  else
    ({ s with reconnectAttempts := s.reconnectAttempts + 1, timerPending := true },
      [WSOut.timerSet s.reconnectInterval])

/-- Which events are deliverable in a state: socket events require a live
socket (`open` additionally a not-yet-connected one); the timer event
requires a pending timer. -/
def wsEnabled (s : WSState) : WSEvent → Bool
  | WSEvent.openEvt => s.socketLive && !s.isConnected
  | WSEvent.close => s.socketLive
  | WSEvent.errorEvt => s.socketLive
  | WSEvent.timer => s.timerPending

/-- The adapter's reaction to one event, from `setupEventHandlers` and the
reconnect timer callback:
* `openEvt` (socket `open`): set `isConnected`, reset the attempt counter,
  emit `connected`;
* `error`: clear `isConnected`, emit `error`;
* `close`: the socket dies, clear `isConnected`, emit `disconnected`, then
  `scheduleReconnect()`;
* `timer`: the pending timer fires and calls `connect()`. -/
def wsStep (s : WSState) : WSEvent → WSState × List WSOut
  | WSEvent.openEvt =>
    ({ s with isConnected := true, reconnectAttempts := 0 }, [WSOut.connectedE])
  | WSEvent.errorEvt =>
    ({ s with isConnected := false }, [WSOut.errorE])
  | WSEvent.close =>
    let s1 : WSState := { s with socketLive := false, isConnected := false }
    let r := scheduleReconnect s1
    (r.1, WSOut.disconnectedE :: r.2)
  | WSEvent.timer =>
    wsConnect { s with timerPending := false }

/-- Run a sequence of events, requiring each to be deliverable; returns the
final state and the concatenated outputs, or `none` for an invalid run. -/
def wsRun (s : WSState) : List WSEvent → Option (WSState × List WSOut)
  | [] => some (s, [])
  | e :: es =>
    if wsEnabled s e then
      match wsRun (wsStep s e).1 es with
      | some (s2, o2) => some (s2, (wsStep s e).2 ++ o2)
      | none => none
    else none

/-- Number of `failed` emissions in an output trace. -/
def countFailed : List WSOut → Nat
  | [] => 0
  | o :: rest => (if o = WSOut.failedE then 1 else 0) + countFailed rest

/-- Reachable-state invariant of the adapter: a live socket and a pending
reconnect timer never coexist (`connect()` is only called from the timer
callback, which consumes the timer first). -/
def WSInv (s : WSState) : Prop :=
  s.socketLive = false ∨ s.timerPending = false

lemma countFailed_append (a b : List WSOut) :
    countFailed (a ++ b) = countFailed a + countFailed b := by
  induction a with
  | nil => simp [countFailed]
  | cons o rest ih => simp [countFailed, ih, Nat.add_assoc]

lemma wsRun_terminal {s : WSState} (h : ∀ e, wsEnabled s e = false)
    {es : List WSEvent} {p : WSState × List WSOut}
    (hr : wsRun s es = some p) : p = (s, []) := by
  cases es with
  | nil => simpa [wsRun] using hr.symm
  | cons e es => rw [wsRun, h e] at hr; simp at hr

lemma wsInv_preserved {s : WSState} {e : WSEvent} (hi : WSInv s)
    (he : wsEnabled s e = true) : WSInv (wsStep s e).1 := by
  cases e with
  | openEvt => exact hi
  | errorEvt => exact hi
  | close =>
    rw [wsStep]
    unfold scheduleReconnect
    by_cases hm : s.maxReconnectAttempts ≤ s.reconnectAttempts
    · rw [if_pos hm]; left; rfl
    · rw [if_neg hm]; left; rfl
  | timer => right; rfl

lemma wsRun_countFailed_le_one {es : List WSEvent} :
    ∀ {s s' : WSState} {outs : List WSOut}, WSInv s →
      wsRun s es = some (s', outs) → countFailed outs ≤ 1 := by
  induction es with
  | nil =>
    intro s s' outs _ hr
    rw [wsRun] at hr
    obtain ⟨-, h2⟩ := Prod.mk.injEq .. ▸ Option.some.injEq .. ▸ hr
    simp [← h2, countFailed]
  | cons e es ih =>
    intro s s' outs hi hr
    rw [wsRun] at hr
    by_cases hen : wsEnabled s e = true
    · rw [if_pos hen] at hr
      cases hrun : wsRun (wsStep s e).1 es with
      | none => rw [hrun] at hr; simp at hr
      | some p =>
        obtain ⟨s2, o2⟩ := p
        rw [hrun] at hr
        simp only [Option.some.injEq, Prod.mk.injEq] at hr
        obtain ⟨-, houts⟩ := hr
        rw [← houts, countFailed_append]
        cases e with
        | openEvt =>
          have : countFailed (wsStep s WSEvent.openEvt).2 = 0 := by
            rw [wsStep]; simp [countFailed]
          rw [this]
          simpa using ih (wsInv_preserved hi hen) hrun
        | errorEvt =>
          have : countFailed (wsStep s WSEvent.errorEvt).2 = 0 := by
            rw [wsStep]; simp [countFailed]
          rw [this]
          simpa using ih (wsInv_preserved hi hen) hrun
        | timer =>
          have : countFailed (wsStep s WSEvent.timer).2 = 0 := by
            rw [wsStep]; simp [wsConnect, countFailed]
          rw [this]
          simpa using ih (wsInv_preserved hi hen) hrun
        | close =>
          by_cases hm : s.maxReconnectAttempts ≤ s.reconnectAttempts
          · -- exhausting close: emits `failed`, leaves a terminal state
            have hstep : wsStep s WSEvent.close =
                ({ s with socketLive := false, isConnected := false },
                  [WSOut.disconnectedE, WSOut.failedE]) := by
              rw [wsStep]
              unfold scheduleReconnect
              rw [if_pos hm]
            have hpend : s.timerPending = false := by
              rcases hi with hl | hp
              · rw [wsEnabled] at hen; rw [hl] at hen; simp at hen
              · exact hp
            have hterm : ∀ e', wsEnabled (wsStep s WSEvent.close).1 e' = false := by
              intro e'
              rw [hstep]
              cases e' <;> simp [wsEnabled, hpend]
            have hp := wsRun_terminal hterm hrun
            have ho2 : o2 = [] := congrArg Prod.snd hp
            rw [hstep, ho2]
            simp [countFailed]
          · have hstep : (wsStep s WSEvent.close).2 =
                [WSOut.disconnectedE, WSOut.timerSet s.reconnectInterval] := by
              rw [wsStep]
              unfold scheduleReconnect
              rw [if_neg hm]
            rw [hstep]
            have h0 : countFailed [WSOut.disconnectedE, WSOut.timerSet s.reconnectInterval] = 0 := by
              simp [countFailed]
            rw [h0]
            simpa using ih (wsInv_preserved hi hen) hrun
    · rw [if_neg hen] at hr; simp at hr

/-- Claim C3: for the secondary (WebSocket) adapter, every `close` event
below the attempt limit schedules a reconnect attempt after the fixed
reconnect delay (incrementing the counter); once the configured maximum is
reached, a further `close` emits `failed` instead and schedules nothing;
a state with no live socket and no pending timer is terminal (no event is
deliverable until an external `connect()` restarts the adapter); and along
any valid event run from an invariant-respecting state, `failed` is emitted
at most once. -/
theorem C3_reconnect_bounded_retries (s : WSState) :
    (s.reconnectAttempts < s.maxReconnectAttempts →
      wsStep s WSEvent.close =
        ({ s with
            socketLive := false
            isConnected := false
            reconnectAttempts := s.reconnectAttempts + 1
            timerPending := true },
          [WSOut.disconnectedE, WSOut.timerSet s.reconnectInterval])) ∧
    (s.maxReconnectAttempts ≤ s.reconnectAttempts →
      wsStep s WSEvent.close =
        ({ s with socketLive := false, isConnected := false },
          [WSOut.disconnectedE, WSOut.failedE])) ∧
    (s.socketLive = false → s.timerPending = false →
      ∀ e, wsEnabled s e = false) ∧
    (∀ es s' outs, WSInv s → wsRun s es = some (s', outs) →
      countFailed outs ≤ 1) := by
  refine ⟨?_, ?_, ?_, ?_⟩
  · intro hlt
    rw [wsStep]
    unfold scheduleReconnect
    rw [if_neg (Nat.not_le.mpr hlt)]
  · intro hge
    rw [wsStep]
    unfold scheduleReconnect
    rw [if_pos hge]
  · intro hl hp e
    cases e <;> simp [wsEnabled, hl, hp]
  · intro es s' outs hi hr
    exact wsRun_countFailed_le_one hi hr

/-- A fresh WebSocket client (constructor state with the configured limits)
right after its first external `connect()`. -/
def wsStart : WSState :=
  { socketLive := true, isConnected := false, reconnectAttempts := 0,
    timerPending := false, maxReconnectAttempts := 10, reconnectInterval := 1000 }

/-- An exhausted client: the attempt counter has reached the maximum. -/
def wsExhausted : WSState :=
  { wsStart with reconnectAttempts := 10 }

/-- Witness for C3, at the configured defaults (10 attempts, 1000 ms): a
below-limit close schedules a 1000 ms reconnect; a close at the limit emits
`failed`; the resulting dead state is terminal; and the concrete exhausting
run emits `failed` exactly once. -/
theorem C3_reconnect_bounded_retries_witness :
    wsStep wsStart WSEvent.close =
      ({ wsStart with
          socketLive := false
          isConnected := false
          reconnectAttempts := 1
          timerPending := true },
        [WSOut.disconnectedE, WSOut.timerSet 1000]) ∧
    wsStep wsExhausted WSEvent.close =
      ({ wsExhausted with socketLive := false, isConnected := false },
        [WSOut.disconnectedE, WSOut.failedE]) ∧
    (∀ e, wsEnabled { wsExhausted with socketLive := false } e = false) ∧
    countFailed [WSOut.disconnectedE, WSOut.failedE] ≤ 1 := by
  obtain ⟨ha, -, -, -⟩ := C3_reconnect_bounded_retries wsStart
  obtain ⟨-, hb, -, hd⟩ := C3_reconnect_bounded_retries wsExhausted
  obtain ⟨-, -, hc, -⟩ :=
    C3_reconnect_bounded_retries { wsExhausted with socketLive := false }
  refine ⟨ha (by decide), hb (by decide), hc rfl rfl, ?_⟩
  have := hd [WSEvent.close] (wsStep wsExhausted WSEvent.close).1
    [WSOut.disconnectedE, WSOut.failedE] (Or.inr rfl) (by decide)
  exact this

/-! ### The application failover controller (`src/index.js`) -/

/-- Which transport a client is. -/
inductive ClientKind where
  | mqtt | ws
deriving DecidableEq, Repr

/-- The state of the `Application` relevant to failover.  Adapters are
identified by generation numbers: `startDataClient` constructs primary
(MQTT) client generation `primaryGen + 1`, `switchToWebSocket` constructs
secondary (WebSocket) client generation `secondaryGen + 1`.  `…Live` means
the client object exists and has not been disconnected; `…Listening` means
the application's `data`/`error` handlers are still attached.
`gracePending` / `cooldownPending` count outstanding `setTimeout` callbacks
for the 5 s grace window and the 10 s retry cooldown. -/
structure AppState where
  useMQTT : Bool
  hasDataClient : Bool
  primaryGen : Nat
  primaryLive : Bool
  primaryListening : Bool
  primaryConnected : Bool
  secondaryGen : Nat
  secondaryLive : Bool
  secondaryListening : Bool
  secondaryConnected : Bool
  gracePending : Nat
  cooldownPending : Nat
deriving DecidableEq, Repr

/-- Events delivered to the application: adapter lifecycle events of the
current primary and secondary clients, incoming messages, and the two timer
callbacks. -/
inductive AppEvent where
  | primaryError | primaryMsg | primaryConnect | primaryClose
  | secondaryFailed | secondaryMsg | secondaryOpen | secondaryClose
  | graceFire | cooldownFire
deriving DecidableEq, Repr

/-- Observable outputs of the controller: connection attempts and validated
`data` events actually observed by the application's handler, both tagged
with the adapter's kind and generation, and timer scheduling with its delay
in milliseconds. -/
inductive AppOut where
  | connectAttempt : ClientKind → Nat → AppOut
  | dataObserved : ClientKind → Nat → AppOut
  | timerSet : Nat → AppOut
deriving DecidableEq, Repr

/-- `Application.startDataClient()`: construct a new MQTT client, set
`useMQTT`, attach the `data` and `error` handlers, and connect. -/
def startDataClient (s : AppState) : AppState × List AppOut :=
  ({ s with
      useMQTT := true
      hasDataClient := true
      primaryGen := s.primaryGen + 1
      primaryLive := true
      primaryListening := true
      primaryConnected := false },
    [AppOut.connectAttempt ClientKind.mqtt (s.primaryGen + 1)])

/-- `Application.switchToWebSocket()`: if a data client exists and is the
MQTT one, disconnect it and remove all its listeners; then construct a new
WebSocket client, clear `useMQTT`, attach handlers and connect. -/
def switchToWebSocket (s : AppState) : AppState × List AppOut :=
  let s1 : AppState :=
    if s.hasDataClient && s.useMQTT then
      { s with primaryLive := false, primaryListening := false, primaryConnected := false }
    else s
  ({ s1 with
      useMQTT := false
      hasDataClient := true
      secondaryGen := s1.secondaryGen + 1
      secondaryLive := true
      secondaryListening := true
      secondaryConnected := false },
    [AppOut.connectAttempt ClientKind.ws (s1.secondaryGen + 1)])

/-- Whether `this.dataClient.connected()` holds: the connected flag of the
currently selected client. -/
def connectedOf (s : AppState) : Bool :=
  if s.useMQTT then s.primaryConnected else s.secondaryConnected

/-- Which events are deliverable: client events require the client object to
be live (handler events additionally that the listeners are attached), timer
events an outstanding timer. -/
def appEnabled (s : AppState) : AppEvent → Bool
  | AppEvent.primaryError => s.primaryLive && s.primaryListening
  | AppEvent.primaryMsg => s.primaryLive
  | AppEvent.primaryConnect => s.primaryLive
  | AppEvent.primaryClose => s.primaryLive
  | AppEvent.secondaryFailed => s.secondaryLive && s.secondaryListening
  | AppEvent.secondaryMsg => s.secondaryLive
  | AppEvent.secondaryOpen => s.secondaryLive
  | AppEvent.secondaryClose => s.secondaryLive
  | AppEvent.graceFire => decide (0 < s.gracePending)
  | AppEvent.cooldownFire => decide (0 < s.cooldownPending)

/-- The application's reaction to one event:
* MQTT `error` handler: if `useMQTT`, start the 5000 ms grace timer;
* grace timer fires: if the current client is not connected, switch to the
  WebSocket fallback;
* WebSocket `failed` handler: start the 10000 ms cooldown timer;
* cooldown fires: `startDataClient()` again;
* a message on a client is observed as `data` only while its listeners are
  attached; connect/open and close events update the connected flags. -/
def appStep (s : AppState) : AppEvent → AppState × List AppOut
  | AppEvent.primaryError =>
    if s.useMQTT then
      ({ s with gracePending := s.gracePending + 1 }, [AppOut.timerSet 5000])
    else (s, [])
  | AppEvent.primaryMsg =>
    (s, if s.primaryListening then [AppOut.dataObserved ClientKind.mqtt s.primaryGen] else [])
  | AppEvent.primaryConnect => ({ s with primaryConnected := true }, [])
  | AppEvent.primaryClose => ({ s with primaryConnected := false }, [])
  | AppEvent.secondaryFailed =>
    ({ s with cooldownPending := s.cooldownPending + 1 }, [AppOut.timerSet 10000])
  | AppEvent.secondaryMsg =>
    (s, if s.secondaryListening then [AppOut.dataObserved ClientKind.ws s.secondaryGen] else [])
  | AppEvent.secondaryOpen => ({ s with secondaryConnected := true }, [])
  | AppEvent.secondaryClose => ({ s with secondaryConnected := false }, [])
  | AppEvent.graceFire =>
    let s1 : AppState := { s with gracePending := s.gracePending - 1 }
    if connectedOf s = false then switchToWebSocket s1 else (s1, [])
  | AppEvent.cooldownFire =>
    startDataClient { s with cooldownPending := s.cooldownPending - 1 }

/-- Run a sequence of events, requiring each to be deliverable. -/
def appRun (s : AppState) : List AppEvent → Option (AppState × List AppOut)
  | [] => some (s, [])
  | e :: es =>
    if appEnabled s e then
      match appRun (appStep s e).1 es with
      | some (s2, o2) => some (s2, (appStep s e).2 ++ o2)
      | none => none
    else none

/-- A retired primary generation `g`: the controller's current primary
generation is at least `g`, and if it is exactly `g` the client object is no
longer live.  Preserved by every step, since only `startDataClient`
revives the primary and it always bumps the generation. -/
def PrimaryRetired (g : Nat) (s : AppState) : Prop :=
  g ≤ s.primaryGen ∧ (s.primaryGen = g → s.primaryLive = false)

lemma primaryRetired_step {g : Nat} {s : AppState} (h : PrimaryRetired g s)
    (e : AppEvent) : PrimaryRetired g (appStep s e).1 := by
  obtain ⟨hle, hdead⟩ := h
  cases e <;>
    (simp only [appStep, startDataClient, switchToWebSocket, connectedOf,
      PrimaryRetired]
     (try split_ifs) <;> (try simp_all) <;> omega)

lemma appStep_data_mqtt {s : AppState} {e : AppEvent} {g : Nat}
    (h : AppOut.dataObserved ClientKind.mqtt g ∈ (appStep s e).2) :
    s.primaryListening = true ∧ s.primaryGen = g := by
  cases e <;>
    simp only [appStep, startDataClient, switchToWebSocket, connectedOf] at h <;>
    (try split_ifs at h) <;>
    simp_all

lemma appRun_no_retired_data {g : Nat} {es : List AppEvent} :
    ∀ {s st : AppState} {outs : List AppOut}, PrimaryRetired g s →
      appRun s es = some (st, outs) →
      AppOut.dataObserved ClientKind.mqtt g ∉ outs := by
  induction es with
  | nil =>
    intro s st outs _ hr
    rw [appRun] at hr
    simp only [Option.some.injEq, Prod.mk.injEq] at hr
    obtain ⟨-, houts⟩ := hr
    rw [← houts]
    simp
  | cons e es ih =>
    intro s st outs hret hr
    rw [appRun] at hr
    by_cases hen : appEnabled s e = true
    · rw [if_pos hen] at hr
      cases hrun : appRun (appStep s e).1 es with
      | none => rw [hrun] at hr; simp at hr
      | some p =>
        obtain ⟨s2, o2⟩ := p
        rw [hrun] at hr
        simp only [Option.some.injEq, Prod.mk.injEq] at hr
        obtain ⟨-, houts⟩ := hr
        rw [← houts]
        rw [List.mem_append]
        rintro (h1 | h2)
        · -- a step emits mqtt data for generation g only if the primary is
          -- live and listening at generation g, contradicting retirement
          obtain ⟨hl, hgen⟩ := appStep_data_mqtt h1
          have hlive : s.primaryLive = true := by
            cases e <;> simp only [appStep, startDataClient, switchToWebSocket,
              connectedOf] at h1 <;> (try split_ifs at h1) <;> simp_all [appEnabled]
          have := hret.2 hgen
          rw [this] at hlive
          exact Bool.false_ne_true hlive
        · exact ih (primaryRetired_step hret e) hrun h2
    · rw [if_neg hen] at hr; simp at hr

/-- Claim C1: if the primary (MQTT) adapter emits `error` while the
controller is using the primary, the 5000 ms grace timer is started; if, when
that timer fires, the controller is still on the primary and the current
client's `connected()` is false, the controller switches to the secondary:
`useMQTT` becomes false, the primary adapter is disconnected and all of its
listeners detached, a secondary connect attempt is emitted, and no event run
from the resulting state ever observes another `data` event of that retired
primary adapter generation. -/
theorem C1_failover_to_secondary (s : AppState) (h1 : s.useMQTT = true)
    (_h2 : s.primaryLive = true) (_h3 : s.primaryListening = true) :
    (appStep s AppEvent.primaryError).1.gracePending = s.gracePending + 1 ∧
    (appStep s AppEvent.primaryError).2 = [AppOut.timerSet 5000] ∧
    ∀ s1 : AppState, 0 < s1.gracePending → s1.useMQTT = true →
      s1.hasDataClient = true → s1.primaryConnected = false →
      (appStep s1 AppEvent.graceFire).1.useMQTT = false ∧
      (appStep s1 AppEvent.graceFire).1.primaryLive = false ∧
      (appStep s1 AppEvent.graceFire).1.primaryListening = false ∧
      (appStep s1 AppEvent.graceFire).1.primaryConnected = false ∧
      AppOut.connectAttempt ClientKind.ws (s1.secondaryGen + 1)
        ∈ (appStep s1 AppEvent.graceFire).2 ∧
      ∀ es st outs, appRun (appStep s1 AppEvent.graceFire).1 es = some (st, outs) →
        AppOut.dataObserved ClientKind.mqtt s1.primaryGen ∉ outs := by
  refine ⟨by simp [appStep, h1], by simp [appStep, h1], ?_⟩
  intro s1 hp hm1 hd hc
  have hconn : connectedOf s1 = false := by
    unfold connectedOf
    rw [if_pos hm1, hc]
  refine ⟨?_, ?_, ?_, ?_, ?_, ?_⟩
  · simp [appStep, switchToWebSocket, hconn, hm1, hd]
  · simp [appStep, switchToWebSocket, hconn, hm1, hd]
  · simp [appStep, switchToWebSocket, hconn, hm1, hd]
  · simp [appStep, switchToWebSocket, hconn, hm1, hd]
  · simp [appStep, switchToWebSocket, hconn, hm1, hd]
  · have hret : PrimaryRetired s1.primaryGen (appStep s1 AppEvent.graceFire).1 := by
      constructor
      · simp [appStep, switchToWebSocket, hconn, hm1, hd]
      · intro _
        simp [appStep, switchToWebSocket, hconn, hm1, hd]
    exact fun es st outs hr => appRun_no_retired_data hret hr

/-- Claim C2: while the controller is using the secondary and the secondary
(WebSocket) adapter emits `failed`, the 10000 ms cooldown timer is started;
when it fires, `startDataClient()` runs again: the controller returns to the
primary, a new primary adapter generation is constructed with its handlers
attached, and a new primary connect attempt is emitted. -/
theorem C2_recovery_to_primary (s : AppState) (_h1 : s.useMQTT = false)
    (_h2 : s.secondaryLive = true) (_h3 : s.secondaryListening = true) :
    (appStep s AppEvent.secondaryFailed).1.cooldownPending = s.cooldownPending + 1 ∧
    (appStep s AppEvent.secondaryFailed).2 = [AppOut.timerSet 10000] ∧
    ∀ s1 : AppState, 0 < s1.cooldownPending →
      (appStep s1 AppEvent.cooldownFire).1.useMQTT = true ∧
      (appStep s1 AppEvent.cooldownFire).1.primaryGen = s1.primaryGen + 1 ∧
      (appStep s1 AppEvent.cooldownFire).1.primaryLive = true ∧
      (appStep s1 AppEvent.cooldownFire).1.primaryListening = true ∧
      (appStep s1 AppEvent.cooldownFire).2 =
        [AppOut.connectAttempt ClientKind.mqtt (s1.primaryGen + 1)] := by
  refine ⟨by simp [appStep], by simp [appStep], ?_⟩
  intro s1 _
  refine ⟨?_, ?_, ?_, ?_, ?_⟩ <;> simp [appStep, startDataClient]

/-- The `Application` constructor state: no data client yet, `useMQTT`
initialized to true. -/
def appInit : AppState :=
  { useMQTT := true, hasDataClient := false, primaryGen := 0,
    primaryLive := false, primaryListening := false, primaryConnected := false,
    secondaryGen := 0, secondaryLive := false, secondaryListening := false,
    secondaryConnected := false, gracePending := 0, cooldownPending := 0 }

/-- The application right after its initial `startDataClient()`. -/
def appStart : AppState := (startDataClient appInit).1

/-- The application after the primary adapter reported `error`. -/
def appW1 : AppState := (appStep appStart AppEvent.primaryError).1

/-- The application after the grace timer fired with the primary still not
connected: now on the WebSocket secondary. -/
def appW2 : AppState := (appStep appW1 AppEvent.graceFire).1

/-- Witness for C1: from a fresh start, `error` then an unconnected grace
expiry switches to the secondary; the concrete continuation run that
delivers a secondary message observes only secondary data. -/
theorem C1_failover_to_secondary_witness :
    appW1.gracePending = appStart.gracePending + 1 ∧
    appW2.useMQTT = false ∧
    appW2.primaryLive = false ∧
    appW2.primaryListening = false ∧
    AppOut.connectAttempt ClientKind.ws (appW1.secondaryGen + 1)
      ∈ (appStep appW1 AppEvent.graceFire).2 ∧
    AppOut.dataObserved ClientKind.mqtt appW1.primaryGen ∉
      [AppOut.dataObserved ClientKind.ws 1] := by
  obtain ⟨hA, -, hmain⟩ :=
    C1_failover_to_secondary appStart rfl rfl rfl
  obtain ⟨hB, hC, hD, -, hE, hF⟩ :=
    hmain appW1 (by decide) (by decide) (by decide) (by decide)
  refine ⟨hA, hB, hC, hD, hE, ?_⟩
  exact hF [AppEvent.secondaryOpen, AppEvent.secondaryMsg]
    (appStep (appStep appW2 AppEvent.secondaryOpen).1 AppEvent.secondaryMsg).1
    [AppOut.dataObserved ClientKind.ws 1] (by decide)

/-- The application on the secondary after its retry budget was exhausted
(`failed` was delivered). -/
def appW3 : AppState := (appStep appW2 AppEvent.secondaryFailed).1

/-- Witness for C2: after the secondary fails, the 10 s cooldown is pending;
when it fires a second-generation primary client is constructed and a new
MQTT connect attempt is emitted. -/
theorem C2_recovery_to_primary_witness :
    appW3.cooldownPending = appW2.cooldownPending + 1 ∧
    (appStep appW2 AppEvent.secondaryFailed).2 = [AppOut.timerSet 10000] ∧
    (appStep appW3 AppEvent.cooldownFire).1.useMQTT = true ∧
    (appStep appW3 AppEvent.cooldownFire).1.primaryGen = appW3.primaryGen + 1 ∧
    (appStep appW3 AppEvent.cooldownFire).2 =
      [AppOut.connectAttempt ClientKind.mqtt (appW3.primaryGen + 1)] := by
  obtain ⟨hA, hB, hmain⟩ :=
    C2_recovery_to_primary appW2 (by decide) (by decide) (by decide)
  obtain ⟨hC, hD, -, -, hE⟩ := hmain appW3 (by decide)
  exact ⟨hA, hB, hC, hD, hE⟩

end PM25
